import Mathlib

/-!
Shallow embedding of the GPU-resource layer of the R2R2 Vulkan renderer,
together with proofs about its claimed properties.

Conventions used throughout:
* machine integers (`u32`, `u64 = vk::DeviceSize`) are modelled as `Nat`;
  wherever an operation of the source can overflow its machine width, the
  reduction `% 2 ^ 32` is written explicitly;
* Vulkan bit-flag constants carry their numeric values from the Vulkan
  headers, and flag sets are `Nat` bit masks combined with `|||` / `&&&`;
* fallible builders return `Except VulkanError _`, mirroring the
  `Result<_, VulkanError>` signatures of the source;
* `f32` fields that the source only ever copies (never computes with) are
  modelled as raw 32-bit patterns (`Nat`).
-/

namespace R2R2

/-- The error variants of `vulkan_helpers/src/errors.rs` that the embedded
    code paths can raise. -/
inductive VulkanError where
  | VertexBufferCreationError (msg : String)
  | ImageCreationError (msg : String)
  | QueueFamilyCreationError (msg : String)
  | PhysicalDeviceCreationError (msg : String)
deriving DecidableEq, Repr

/-! ## Shader binding table layout
    From `vulkan_ray_tracing/src/shader_binding_table.rs`,
    `ShaderBindingTableBuilder::build` (lines 47-117). -/

/-- The layout fields of `ShaderBindingTable` (entry sizes and region
    offsets, all `vk::DeviceSize`). -/
structure ShaderBindingTableLayout where
  ray_gen_entry_size : Nat
  ray_gen_offset : Nat
  miss_entry_size : Nat
  miss_offset : Nat
  hit_group_entry_size : Nat
  hit_group_offset : Nat
deriving DecidableEq, Repr

/-- The layout arithmetic of `ShaderBindingTableBuilder::build`:
    `entry_size = prog_id_size + (prog_id_size % 16)`, one ray-gen entry,
    one miss entry, one hit-group entry, offsets accumulated in that
    order (`ray_gen_offset = 0`, `miss_offset = ray_gen_entry_size`,
    `hit_group_offset = ray_gen_entry_size + miss_entry_size`). -/
def sbtBuild (shader_group_handle_size : Nat) : ShaderBindingTableLayout :=
  let prog_id_size := shader_group_handle_size
  let entry_size := prog_id_size + prog_id_size % 16
  let ray_gen_entry_size := entry_size
  let miss_entry_size := entry_size
  let hit_group_entry_size := entry_size
  { ray_gen_entry_size := ray_gen_entry_size
    ray_gen_offset := 0
    miss_entry_size := miss_entry_size
    miss_offset := ray_gen_entry_size
    hit_group_entry_size := hit_group_entry_size
    hit_group_offset := ray_gen_entry_size + miss_entry_size }

/-- The builder writes one group per region, so the region counts used by
    the claim's offset equations. -/
def sbtRayGenCount : Nat := 1

/-- One miss group in this revision (no shadow-miss entry in the SBT). -/
def sbtMissCount : Nat := 1

/-- Claim C1 as stated, as a predicate of the device-reported handle
    size: offset equations plus 16-byte alignment of every stride. -/
def sbtClaim (handle_size : Nat) : Prop :=
  let t := sbtBuild handle_size
  t.ray_gen_offset = 0 ∧
  t.miss_offset = t.ray_gen_entry_size * sbtRayGenCount ∧
  t.hit_group_offset = t.miss_offset + t.miss_entry_size * sbtMissCount ∧
  t.ray_gen_entry_size % 16 = 0 ∧
  t.miss_entry_size % 16 = 0 ∧
  t.hit_group_entry_size % 16 = 0

instance (n : Nat) : Decidable (sbtClaim n) := by
  unfold sbtClaim; infer_instance

/-! ## Present mode selection
    From `vulkan_helpers/src/present_mode.rs`,
    `PresentModeBuilder::build` (lines 22-37). -/

/-- The `vk::PresentModeKHR` values the selection logic distinguishes. -/
inductive PresentModeKHR where
  | immediate
  | mailbox
  | fifo
  | fifoRelaxed
deriving DecidableEq, Repr

/-- The selection loop of `PresentModeBuilder::build`: starting from the
    accumulator `FIFO`, a `MAILBOX` entry is taken and the loop breaks; an
    `IMMEDIATE` entry replaces the accumulator and the loop continues. -/
def presentModeLoop : List PresentModeKHR → PresentModeKHR → PresentModeKHR
  | [], result => result
  | m :: rest, result =>
    if m = PresentModeKHR.mailbox then PresentModeKHR.mailbox
    else if m = PresentModeKHR.immediate then presentModeLoop rest PresentModeKHR.immediate
    else presentModeLoop rest result

/-- `PresentModeBuilder::build` on the driver-reported list (the
    surrounding surface query is not modelled; once the list is obtained
    the build is infallible and returns `Ok(result)`). -/
def presentModeBuild (present_modes : List PresentModeKHR) : PresentModeKHR :=
  presentModeLoop present_modes PresentModeKHR.fifo

/-! ## Packed ray-tracing instance records
    From `vulkan_ray_tracing/src/acceleration_structure.rs`,
    `VulkanGeometryInstance` (lines 22-71). -/

/-- `VulkanGeometryInstance`: the packed per-instance record of the
    top-level acceleration structure.  `transform` is `[f32; 12]`, held
    here as 12 raw 32-bit patterns since the code only copies it. -/
structure VulkanGeometryInstance where
  transform : List Nat
  instance_id_and_mask : Nat
  instance_offset_and_flags : Nat
  acceleration_handle : Nat
deriving DecidableEq, Repr

/-- `set_id`: `id & 0x00ff_ffff` or-ed into the field. -/
def vgiSetId (field id : Nat) : Nat := field ||| (id &&& 0x00ffffff)

/-- `set_mask`: `u32::from(mask) << 24` or-ed into the field
    (`mask : u8`, so the shift cannot overflow 32 bits). -/
def vgiSetMask (field mask : Nat) : Nat := field ||| (mask <<< 24)

/-- `set_offset`: `offset & 0x00ff_ffff` or-ed into the field. -/
def vgiSetOffset (field offset : Nat) : Nat := field ||| (offset &&& 0x00ffffff)

/-- `set_flags`: `(flags.as_raw() as u32) << 24` or-ed into the field;
    the `u32` shift wraps, hence the explicit `% 2 ^ 32`. -/
def vgiSetFlags (field flags : Nat) : Nat := field ||| ((flags <<< 24) % 2 ^ 32)

/-- `VulkanGeometryInstance::new`: zero-initialises both packed words and
    then applies `set_id`, `set_mask`, `set_offset`, `set_flags`. -/
def vgiNew (transform : List Nat) (id : Nat) (mask : Nat) (offset : Nat)
    (flags : Nat) (acceleration_handle : Nat) : VulkanGeometryInstance :=
  { transform := transform
    instance_id_and_mask := vgiSetMask (vgiSetId 0 id) mask
    instance_offset_and_flags := vgiSetFlags (vgiSetOffset 0 offset) flags
    acceleration_handle := acceleration_handle }

/-! ## Buffer types, usage flags and memory properties
    From `vulkan_helpers/src/buffer.rs`, `BufferType` (lines 11-20) and
    `BufferBuilder::build` (lines 83-156). -/

/-- `BufferType`. -/
inductive BufferType where
  | index
  | rayTracing
  | rayTracingInstance
  | shaderBindingTable
  | staging
  | storage
  | uniform
  | vertex
deriving DecidableEq, Repr

/-- `vk::BufferUsageFlags::TRANSFER_SRC`. -/
def USAGE_TRANSFER_SRC : Nat := 0x1
/-- `vk::BufferUsageFlags::TRANSFER_DST`. -/
def USAGE_TRANSFER_DST : Nat := 0x2
/-- `vk::BufferUsageFlags::UNIFORM_BUFFER`. -/
def USAGE_UNIFORM_BUFFER : Nat := 0x10
/-- `vk::BufferUsageFlags::STORAGE_BUFFER`. -/
def USAGE_STORAGE_BUFFER : Nat := 0x20
/-- `vk::BufferUsageFlags::INDEX_BUFFER`. -/
def USAGE_INDEX_BUFFER : Nat := 0x40
/-- `vk::BufferUsageFlags::VERTEX_BUFFER`. -/
def USAGE_VERTEX_BUFFER : Nat := 0x80
/-- `vk::BufferUsageFlags::RAY_TRACING_NV`. -/
def USAGE_RAY_TRACING_NV : Nat := 0x400

/-- `vk::MemoryPropertyFlags::DEVICE_LOCAL`. -/
def MEMORY_DEVICE_LOCAL : Nat := 0x1
/-- `vk::MemoryPropertyFlags::HOST_VISIBLE`. -/
def MEMORY_HOST_VISIBLE : Nat := 0x2
/-- `vk::MemoryPropertyFlags::HOST_COHERENT`. -/
def MEMORY_HOST_COHERENT : Nat := 0x4

/-- The `usage` match of `BufferBuilder::build` (lines 84-103). -/
def bufferUsage : BufferType → Nat
  | .index => USAGE_INDEX_BUFFER ||| USAGE_TRANSFER_DST ||| USAGE_STORAGE_BUFFER
  | .rayTracing => USAGE_RAY_TRACING_NV
  | .rayTracingInstance => USAGE_RAY_TRACING_NV
  | .shaderBindingTable => USAGE_TRANSFER_SRC
  | .staging => USAGE_TRANSFER_SRC
  | .storage => USAGE_STORAGE_BUFFER ||| USAGE_TRANSFER_DST
  | .uniform => USAGE_UNIFORM_BUFFER
  | .vertex => USAGE_VERTEX_BUFFER ||| USAGE_TRANSFER_DST ||| USAGE_STORAGE_BUFFER

/-- The `properties` match of `BufferBuilder::build` (lines 105-122). -/
def bufferMemoryProperties : BufferType → Nat
  | .index => MEMORY_DEVICE_LOCAL
  | .rayTracing => MEMORY_DEVICE_LOCAL
  | .rayTracingInstance => MEMORY_HOST_VISIBLE ||| MEMORY_HOST_COHERENT
  | .shaderBindingTable => MEMORY_HOST_VISIBLE
  | .staging => MEMORY_HOST_VISIBLE ||| MEMORY_HOST_COHERENT
  | .storage => MEMORY_HOST_VISIBLE ||| MEMORY_HOST_COHERENT
  | .uniform => MEMORY_HOST_VISIBLE ||| MEMORY_HOST_COHERENT
  | .vertex => MEMORY_DEVICE_LOCAL

/-! ## Memory-type selection
    From `vulkan_helpers/src/buffer.rs`,
    `BufferBuilder::find_memory_type` (lines 158-179) and the error path
    of `BufferBuilder::build` (lines 130-138). -/

/-- One entry of `vk::PhysicalDeviceMemoryProperties::memory_types`. -/
structure MemoryType where
  property_flags : Nat
deriving DecidableEq, Repr

/-- The scan of `find_memory_type`: for `i` in
    `0..memory_type_count`, return the first `i` with
    `type_filter & (1 << i) != 0` and
    `memory_types[i].property_flags.contains(properties)`.
    `contains` on Vulkan flag sets is the bitwise superset test. -/
def findMemoryTypeLoop (type_filter : Nat) (properties : Nat) :
    List MemoryType → Nat → Option Nat
  | [], _ => none
  | mt :: rest, i =>
    if type_filter &&& (1 <<< i) ≠ 0 ∧ mt.property_flags &&& properties = properties
    then some i
    else findMemoryTypeLoop type_filter properties rest (i + 1)

/-- `BufferBuilder::find_memory_type` over the device's memory-type
    list. -/
def find_memory_type (type_filter : Nat) (properties : Nat)
    (memory_types : List MemoryType) : Option Nat :=
  findMemoryTypeLoop type_filter properties memory_types 0

/-- The memory-type-selection step of `BufferBuilder::build`: the
    `Option` is turned into a `VertexBufferCreationError` via
    `ok_or_else` (lines 134-138). -/
def bufferBuildMemoryTypeIndex (type_filter : Nat) (properties : Nat)
    (memory_types : List MemoryType) : Except VulkanError Nat :=
  match find_memory_type type_filter properties memory_types with
  | some i => .ok i
  | none => .error (.VertexBufferCreationError "Cannot find a memory type")

/-! ## Byte-level model of `create_buffer`
    From `vulkan_helpers/src/vulkan_context.rs`,
    `VulkanContext::create_buffer` (lines 112-134), together with
    `Buffer::copy_data` (buffer.rs lines 45-55) and
    `CommandBuffers::copy_buffer` (command_buffers.rs lines 125-136). -/

/-- The observable content-relevant state of a `Buffer`: its type, its
    usage flags and its `buffer_size` bytes of memory. -/
structure ModelBuffer where
  ty : BufferType
  usage : Nat
  content : List Nat
deriving DecidableEq, Repr

/-- `BufferBuilder::build` for content purposes: a fresh buffer of
    `size` bytes with the type's usage flags (freshly allocated device
    memory is modelled as zero bytes; nothing below depends on the
    initial value). -/
def bufferBuild (ty : BufferType) (size : Nat) : ModelBuffer :=
  { ty := ty, usage := bufferUsage ty, content := List.replicate size 0 }

/-- `Buffer::copy_data`: a mapped-memory write of `buffer_size` bytes
    from the source pointer. -/
def bufferCopyData (b : ModelBuffer) (data : List Nat) : ModelBuffer :=
  { b with content := data.take b.content.length }

/-- `CommandBuffers::copy_buffer`: a GPU `cmd_copy_buffer` of `size`
    bytes from `src` into `dst`, submitted and waited on. -/
def copyBuffer (src dst : ModelBuffer) (size : Nat) : ModelBuffer :=
  { dst with content := src.content.take size }

/-- `VulkanContext::create_buffer`: staging buffer, mapped write of the
    source bytes, destination buffer of the requested type, GPU copy. -/
def createBuffer (ty : BufferType) (size : Nat) (data : List Nat) : ModelBuffer :=
  let staging_buffer := bufferBuild BufferType.staging size
  let staging_buffer := bufferCopyData staging_buffer data
  let buffer := bufferBuild ty size
  copyBuffer staging_buffer buffer size

/-- Claim C2 as stated, for one buffer type and one source byte
    sequence: content round-trip plus the destination's usage flags
    permitting `TRANSFER_DST`. -/
def createBufferClaim (ty : BufferType) (data : List Nat) : Prop :=
  (createBuffer ty data.length data).content = data ∧
  bufferUsage ty &&& USAGE_TRANSFER_DST ≠ 0

instance (ty : BufferType) (data : List Nat) : Decidable (createBufferClaim ty data) := by
  unfold createBufferClaim; infer_instance

/-! ## Image layout transitions
    From `vulkan_helpers/src/images.rs`, `transition_image_layout`
    (lines 94-180). -/

/-- The `vk::ImageLayout` values (VK_IMAGE_LAYOUT_*). -/
inductive ImageLayout where
  | undefined
  | general
  | colorAttachmentOptimal
  | depthStencilAttachmentOptimal
  | depthStencilReadOnlyOptimal
  | shaderReadOnlyOptimal
  | transferSrcOptimal
  | transferDstOptimal
  | preinitialized
  | presentSrcKhr
deriving DecidableEq, Repr

/-- `vk::AccessFlags::SHADER_READ`. -/
def ACCESS_SHADER_READ : Nat := 0x20
/-- `vk::AccessFlags::DEPTH_STENCIL_ATTACHMENT_READ`. -/
def ACCESS_DEPTH_STENCIL_ATTACHMENT_READ : Nat := 0x200
/-- `vk::AccessFlags::DEPTH_STENCIL_ATTACHMENT_WRITE`. -/
def ACCESS_DEPTH_STENCIL_ATTACHMENT_WRITE : Nat := 0x400
/-- `vk::AccessFlags::TRANSFER_WRITE`. -/
def ACCESS_TRANSFER_WRITE : Nat := 0x1000
/-- `vk::AccessFlags::empty()`. -/
def ACCESS_NONE : Nat := 0

/-- `vk::PipelineStageFlags::TOP_OF_PIPE`. -/
def STAGE_TOP_OF_PIPE : Nat := 0x1
/-- `vk::PipelineStageFlags::FRAGMENT_SHADER`. -/
def STAGE_FRAGMENT_SHADER : Nat := 0x80
/-- `vk::PipelineStageFlags::EARLY_FRAGMENT_TESTS`. -/
def STAGE_EARLY_FRAGMENT_TESTS : Nat := 0x100
/-- `vk::PipelineStageFlags::TRANSFER`. -/
def STAGE_TRANSFER : Nat := 0x1000

/-- One recorded `cmd_pipeline_barrier` with an image memory barrier:
    the access masks, the stage masks and the layout pair it carries. -/
structure BarrierRecord where
  src_access_mask : Nat
  dst_access_mask : Nat
  src_stage : Nat
  dst_stage : Nat
  old_layout : ImageLayout
  new_layout : ImageLayout
deriving DecidableEq, Repr

/-- The access/stage selection chain of `transition_image_layout`
    (lines 114-148): three supported transition shapes, every other pair
    is `ImageCreationError("unsupported layout transition")`. -/
def transitionMasks (old_layout new_layout : ImageLayout) :
    Except VulkanError (Nat × Nat × Nat × Nat) :=
  if old_layout = ImageLayout.undefined ∧
      (new_layout = ImageLayout.transferDstOptimal ∨
       new_layout = ImageLayout.transferSrcOptimal) then
    .ok (ACCESS_NONE, ACCESS_TRANSFER_WRITE, STAGE_TOP_OF_PIPE, STAGE_TRANSFER)
  else if old_layout = ImageLayout.transferDstOptimal ∧
      new_layout = ImageLayout.shaderReadOnlyOptimal then
    .ok (ACCESS_TRANSFER_WRITE, ACCESS_SHADER_READ, STAGE_TRANSFER, STAGE_FRAGMENT_SHADER)
  else if old_layout = ImageLayout.undefined ∧
      new_layout = ImageLayout.depthStencilAttachmentOptimal then
    .ok (ACCESS_NONE,
         ACCESS_DEPTH_STENCIL_ATTACHMENT_READ ||| ACCESS_DEPTH_STENCIL_ATTACHMENT_WRITE,
         STAGE_TOP_OF_PIPE, STAGE_EARLY_FRAGMENT_TESTS)
  else
    .error (.ImageCreationError "unsupported layout transition")

/-- `transition_image_layout` as the list of barriers it records into
    the single-time command buffer: exactly one barrier with the
    selected masks for a supported pair, and an early error return (the
    `return Err(..)` at line 145, before `cmd_pipeline_barrier`) with
    nothing recorded for any other pair. -/
def transition_image_layout (old_layout new_layout : ImageLayout) :
    Except VulkanError (List BarrierRecord) :=
  match transitionMasks old_layout new_layout with
  | .error e => .error e
  | .ok (src_access, dst_access, src_stage, dst_stage) =>
    .ok [{ src_access_mask := src_access
           dst_access_mask := dst_access
           src_stage := src_stage
           dst_stage := dst_stage
           old_layout := old_layout
           new_layout := new_layout }]

/-! ## Physical-device and queue-family selection
    From `vulkan_helpers/src/physical_device.rs` (lines 55-100) and
    `vulkan_helpers/src/queue_family.rs` (lines 29-51). -/

/-- `vk::QueueFlags::GRAPHICS`. -/
def QUEUE_GRAPHICS : Nat := 0x1

/-- One entry of `get_physical_device_queue_family_properties`. -/
structure QueueFamilyProperties where
  queue_count : Nat
  queue_flags : Nat
deriving DecidableEq, Repr

/-- The capability description of one physical device, as observed
    through the queries `is_device_suitable` and the two builders make:
    queue-family properties, per-family surface support
    (`get_physical_device_surface_support`), the extension lists, the
    swap-chain support query results and the anisotropy feature bit. -/
structure DeviceDescription where
  queue_families : List (QueueFamilyProperties × Bool)
  available_extensions : List Nat
  required_extensions : List Nat
  surface_formats : List Nat
  surface_present_modes : List PresentModeKHR
  sampler_anisotropy : Bool
deriving DecidableEq, Repr

/-- `QueueFamilyIndices` (physical_device.rs lines 8-11). -/
structure QueueFamilyIndices where
  graphics_family : Option Nat
  present_family : Option Nat
deriving DecidableEq, Repr

/-- `QueueFamilyIndices::is_complete`. -/
def QueueFamilyIndices.is_complete (q : QueueFamilyIndices) : Bool :=
  q.graphics_family.isSome && q.present_family.isSome

/-- The loop of `PhysicalDeviceBuilder::find_queue_families`
    (lines 75-94): records the last family with a positive queue count
    and the graphics flag, records the last family with surface support,
    and breaks as soon as both are present. -/
def findQueueFamiliesLoop :
    List (QueueFamilyProperties × Bool) → Nat → Option Nat → Option Nat →
    QueueFamilyIndices
  | [], _, g, p => { graphics_family := g, present_family := p }
  | (qf, support) :: rest, index, g, p =>
    let g := if qf.queue_count > 0 ∧ qf.queue_flags &&& QUEUE_GRAPHICS ≠ 0
             then some index else g
    let p := if support then some index else p
    if g.isSome ∧ p.isSome then { graphics_family := g, present_family := p }
    else findQueueFamiliesLoop rest (index + 1) g p

/-- `PhysicalDeviceBuilder::find_queue_families`. -/
def find_queue_families (d : DeviceDescription) : QueueFamilyIndices :=
  findQueueFamiliesLoop d.queue_families 0 none none

/-- `PhysicalDeviceBuilder::check_device_extensions_support`
    (lines 102-119): every required extension is in the available
    list. -/
def check_device_extensions_support (d : DeviceDescription) : Bool :=
  d.required_extensions.all (fun e => d.available_extensions.contains e)

/-- `PhysicalDeviceBuilder::is_device_suitable` (lines 55-68). -/
def is_device_suitable (d : DeviceDescription) : Bool :=
  (find_queue_families d).is_complete
    && check_device_extensions_support d
    && !d.surface_formats.isEmpty
    && !d.surface_present_modes.isEmpty
    && d.sampler_anisotropy

/-- The `find_map` of `QueueFamilyBuilder::build` (queue_family.rs
    lines 30-45): the first family index whose flags contain `GRAPHICS`
    and which supports presentation to the surface. -/
def queueFamilyBuildLoop :
    List (QueueFamilyProperties × Bool) → Nat → Option Nat
  | [], _ => none
  | (qf, support) :: rest, index =>
    if qf.queue_flags &&& QUEUE_GRAPHICS ≠ 0 ∧ support then some index
    else queueFamilyBuildLoop rest (index + 1)

/-- `QueueFamilyBuilder::build`: the found single graphics+present
    family, or `QueueFamilyCreationError`. -/
def queueFamilyBuild (d : DeviceDescription) : Except VulkanError Nat :=
  match queueFamilyBuildLoop d.queue_families 0 with
  | some index => .ok index
  | none => .error (.QueueFamilyCreationError "Cannot find queue family")

/-! ## Fence creation
    From `vulkan_helpers/src/command_buffers.rs`,
    `CommandBuffersBuilder::build` (lines 159-197). -/

/-- `vk::FenceCreateFlags::SIGNALED`. -/
def FENCE_CREATE_SIGNALED : Nat := 0x1

/-- A created fence, carrying the `vk::FenceCreateInfo` flags it was
    created with. -/
structure Fence where
  flags : Nat
deriving DecidableEq, Repr

/-- A fence starts life signaled exactly when its create-info flags
    contain `SIGNALED`. -/
def Fence.signaledAtCreation (f : Fence) : Bool :=
  f.flags &&& FENCE_CREATE_SIGNALED ≠ 0

/-- The fences created by the loop of `CommandBuffersBuilder::build`:
    one per frame slot, each with
    `FenceCreateInfo::builder().flags(vk::FenceCreateFlags::SIGNALED)`
    (lines 180-183). -/
def commandBuffersBuildFences (buffer_count : Nat) : List Fence :=
  List.replicate buffer_count { flags := FENCE_CREATE_SIGNALED }

/-- `vkWaitForFences` semantics for one fence on a single-threaded CPU:
    the wait returns (rather than blocking forever) exactly when the
    fence is already signaled or a pending queue submission will signal
    it. -/
def fenceWaitReturns (signaled : Bool) (pending_submission : Bool) : Bool :=
  signaled || pending_submission

/-! ## Per-frame synchronization trace
    From `vulkan_helpers/src/vulkan_context.rs`, `frame_begin` /
    `frame_end` / `frame_present` (lines 136-161), and
    `vulkan_helpers/src/command_buffers.rs` (lines 93-123). -/

/-- The synchronization-relevant events one frame cycle issues, each
    tagged with the frame slot it acts on. -/
inductive FrameEvent where
  | waitFence (slot : Nat)
  | acquireImage (slot : Nat)
  | beginCB (slot : Nat)
  | endCB (slot : Nat)
  | resetFence (slot : Nat)
  | queueSubmit (slot : Nat)
  | queuePresent (slot : Nat)
deriving DecidableEq, Repr

/-- The event sequence of one `frame_begin`; `frame_end`;
    `frame_present` cycle on slot `i`, in source order:
    `frame_begin` waits on the slot's fence, acquires the swap-chain
    image, and begins the slot's command buffer; `frame_end` ends the
    command buffer, resets the fence, and submits; `frame_present`
    presents. -/
def cycleTrace (i : Nat) : List FrameEvent :=
  [.waitFence i, .acquireImage i, .beginCB i, .endCB i,
   .resetFence i, .queueSubmit i, .queuePresent i]

/-- `frame_present`'s frame-index update (vulkan_context.rs line 159):
    `frame_index = (frame_index + 1) % frames_count`. -/
def framePresentNextIndex (frame_index frames_count : Nat) : Nat :=
  (frame_index + 1) % frames_count

/-- The event trace of `n` consecutive frame cycles starting at frame
    index `i` with `frames_count = fc`, the index advancing as
    `frame_present` does. -/
def runTrace : Nat → Nat → Nat → List FrameEvent
  | _, 0, _ => []
  | i, n + 1, fc => cycleTrace i ++ runTrace (framePresentNextIndex i fc) n fc

/-- Straight-line variant of `runTrace` with no index wrap-around, used
    to reason about a window of cycles that stays below `frames_count`. -/
def runTraceLin : Nat → Nat → List FrameEvent
  | _, 0 => []
  | i, n + 1 => cycleTrace i ++ runTraceLin (i + 1) n

/-- CPU-observed fence safety automaton.  The state maps each slot to
    "this slot's fence is known signaled" (a completed `waitFence`
    establishes it, `resetFence` clears it); `runSafe` threads the state
    through a trace and conjoins, at every `beginCB`, the check that the
    slot's fence is known signaled — i.e. that no command buffer is
    recorded into while its prior submission's fence may be unsignaled.
    Returns (all recordings were safe, final state). -/
def runSafe : List FrameEvent → (Nat → Bool) → Bool × (Nat → Bool)
  | [], st => (true, st)
  | .waitFence j :: rest, st => runSafe rest (fun k => if k = j then true else st k)
  | .resetFence j :: rest, st => runSafe rest (fun k => if k = j then false else st k)
  | .beginCB j :: rest, st =>
    let r := runSafe rest st
    (st j && r.1, r.2)
  | .acquireImage _ :: rest, st => runSafe rest st
  | .endCB _ :: rest, st => runSafe rest st
  | .queueSubmit _ :: rest, st => runSafe rest st
  | .queuePresent _ :: rest, st => runSafe rest st

/-! ## Acceleration-structure build ordering
    From `vulkan_ray_tracing/src/ray_tracing_pipeline.rs`,
    `create_acceleration_structures` (lines 234-271), and
    `vulkan_ray_tracing/src/acceleration_structure.rs`,
    `AccelerationStructureBuilder::generate` (lines 241-333). -/

/-- `vk::AccelerationStructureTypeNV`. -/
inductive ASType where
  | bottomLevel
  | topLevel
deriving DecidableEq, Repr

/-- `vk::AccessFlags::ACCELERATION_STRUCTURE_READ_NV`. -/
def ACCESS_ACCELERATION_STRUCTURE_READ_NV : Nat := 0x200000
/-- `vk::AccessFlags::ACCELERATION_STRUCTURE_WRITE_NV`. -/
def ACCESS_ACCELERATION_STRUCTURE_WRITE_NV : Nat := 0x400000

/-- The commands `generate` records into the command buffer:
    `cmd_build_acceleration_structure` (tagged with the structure being
    built and the bottom-level handles its instance buffer references)
    and the global memory barrier that follows each build, carrying its
    source and destination access masks. -/
inductive ASCmd where
  | buildAS (ty : ASType) (builtStructure : Nat) (referencedHandles : List Nat)
  | asBarrier (src_access_mask dst_access_mask : Nat)
deriving DecidableEq, Repr

/-- The recording of one `AccelerationStructureBuilder::generate` call:
    the build command, then the global memory barrier with
    `ACCELERATION_STRUCTURE_WRITE|READ` on both sides (lines 302-330). -/
def generateTrace (ty : ASType) (builtStructure : Nat)
    (referencedHandles : List Nat) : List ASCmd :=
  [.buildAS ty builtStructure referencedHandles,
   .asBarrier
     (ACCESS_ACCELERATION_STRUCTURE_WRITE_NV ||| ACCESS_ACCELERATION_STRUCTURE_READ_NV)
     (ACCESS_ACCELERATION_STRUCTURE_WRITE_NV ||| ACCESS_ACCELERATION_STRUCTURE_READ_NV)]

/-- The command-buffer recording of
    `RayTracingPipelineBuilder::create_acceleration_structures`: inside
    one single-use command buffer, first the bottom-level build of the
    single mesh's structure (no referenced handles), then the top-level
    build whose one instance references that bottom-level structure's
    handle (obtained with `get_acceleration_structure_handle`). -/
def createAccelerationStructuresTrace (blasHandle tlasHandle : Nat) : List ASCmd :=
  generateTrace ASType.bottomLevel blasHandle []
    ++ generateTrace ASType.topLevel tlasHandle [blasHandle]

/-! ## Theorems -/

/-- C1, counterexample: on a device reporting
    `shader_group_handle_size = 4` the built stride is
    `4 + (4 % 16) = 8`, which is not a multiple of 16, so the claim as
    stated (for every device-reported handle size) fails. -/
theorem sbt_claim_counterexample : ¬ sbtClaim 4 := by decide

/-- C1 (amended): for every device-reported `shader_group_handle_size`,
    the offsets built by `ShaderBindingTableBuilder::build` satisfy
    `ray_gen_offset = 0`,
    `miss_offset = ray_gen_entry_size * ray_gen_count` and
    `hit_group_offset = miss_offset + miss_entry_size * miss_count`;
    the common stride is `handle_size + handle_size % 16`, and it is a
    multiple of 16 whenever the handle size is a multiple of 8 (which
    covers the sizes real devices report; for other sizes the stride is
    not 16-byte aligned, as the counterexample shows). -/
theorem sbt_layout (handle_size : Nat) :
    (sbtBuild handle_size).ray_gen_offset = 0 ∧
    (sbtBuild handle_size).miss_offset =
      (sbtBuild handle_size).ray_gen_entry_size * sbtRayGenCount ∧
    (sbtBuild handle_size).hit_group_offset =
      (sbtBuild handle_size).miss_offset +
        (sbtBuild handle_size).miss_entry_size * sbtMissCount ∧
    (sbtBuild handle_size).ray_gen_entry_size = handle_size + handle_size % 16 ∧
    (sbtBuild handle_size).miss_entry_size = handle_size + handle_size % 16 ∧
    (sbtBuild handle_size).hit_group_entry_size = handle_size + handle_size % 16 ∧
    (handle_size % 8 = 0 →
      (sbtBuild handle_size).ray_gen_entry_size % 16 = 0 ∧
      (sbtBuild handle_size).miss_entry_size % 16 = 0 ∧
      (sbtBuild handle_size).hit_group_entry_size % 16 = 0) := by
  refine ⟨rfl, ?_, ?_, rfl, rfl, rfl, ?_⟩
  · simp [sbtBuild, sbtRayGenCount]
  · simp [sbtBuild, sbtMissCount]
  · intro h
    refine ⟨?_, ?_, ?_⟩ <;> simp only [sbtBuild] <;> omega

/-- Witness for `sbt_layout` at the handle size 16 that NV ray-tracing
    devices report: all hypotheses discharged concretely. -/
theorem sbt_layout_witness :
    (sbtBuild 16).ray_gen_offset = 0 ∧
    (sbtBuild 16).ray_gen_entry_size % 16 = 0 ∧
    (sbtBuild 16).miss_entry_size % 16 = 0 ∧
    (sbtBuild 16).hit_group_entry_size % 16 = 0 := by
  have h := sbt_layout 16
  exact ⟨h.1, h.2.2.2.2.2.2 (by decide)⟩

/-- Helper: once `MAILBOX` occurs in the remaining list the selection
    loop returns `MAILBOX` whatever the accumulator holds. -/
theorem presentModeLoop_of_mailbox (modes : List PresentModeKHR)
    (h : PresentModeKHR.mailbox ∈ modes) (r : PresentModeKHR) :
    presentModeLoop modes r = PresentModeKHR.mailbox := by
  induction modes generalizing r with
  | nil => cases h
  | cons m rest ih =>
    rw [presentModeLoop]
    by_cases hm : m = PresentModeKHR.mailbox
    · simp [hm]
    · have hmem : PresentModeKHR.mailbox ∈ rest := by
        rcases List.mem_cons.mp h with h' | h'
        · exact absurd h'.symm hm
        · exact h'
      by_cases hi : m = PresentModeKHR.immediate <;> simp [hm, hi, ih hmem]

/-- Helper: with neither `MAILBOX` nor `IMMEDIATE` in the list, the
    loop returns its accumulator. -/
theorem presentModeLoop_of_accumulator (modes : List PresentModeKHR)
    (hm : PresentModeKHR.mailbox ∉ modes)
    (hi : PresentModeKHR.immediate ∉ modes) (r : PresentModeKHR) :
    presentModeLoop modes r = r := by
  induction modes generalizing r with
  | nil => rfl
  | cons m rest ih =>
    rw [presentModeLoop]
    have hm1 : m ≠ PresentModeKHR.mailbox := fun h => hm (h ▸ List.mem_cons_self m rest)
    have hi1 : m ≠ PresentModeKHR.immediate := fun h => hi (h ▸ List.mem_cons_self m rest)
    have hm2 : PresentModeKHR.mailbox ∉ rest := fun h => hm (List.mem_cons_of_mem m h)
    have hi2 : PresentModeKHR.immediate ∉ rest := fun h => hi (List.mem_cons_of_mem m h)
    simp only [if_neg hm1, if_neg hi1]
    exact ih hm2 hi2 r

/-- Helper: with no `MAILBOX` but some `IMMEDIATE` in the remaining
    list, the loop returns `IMMEDIATE` whatever the accumulator holds. -/
theorem presentModeLoop_of_immediate (modes : List PresentModeKHR)
    (hm : PresentModeKHR.mailbox ∉ modes)
    (hi : PresentModeKHR.immediate ∈ modes) (r : PresentModeKHR) :
    presentModeLoop modes r = PresentModeKHR.immediate := by
  induction modes generalizing r with
  | nil => cases hi
  | cons m rest ih =>
    rw [presentModeLoop]
    have hm1 : m ≠ PresentModeKHR.mailbox := fun h => hm (h ▸ List.mem_cons_self m rest)
    have hm2 : PresentModeKHR.mailbox ∉ rest := fun h => hm (List.mem_cons_of_mem m h)
    by_cases him : m = PresentModeKHR.immediate
    · subst him
      simp only [if_neg hm1, if_pos rfl]
      by_cases hir : PresentModeKHR.immediate ∈ rest
      · exact ih hm2 hir PresentModeKHR.immediate
      · exact presentModeLoop_of_accumulator rest hm2 hir PresentModeKHR.immediate
    · have hirest : PresentModeKHR.immediate ∈ rest := by
        rcases List.mem_cons.mp hi with h' | h'
        · exact absurd h'.symm him
        · exact h'
      simp only [if_neg hm1, if_neg him]
      exact ih hm2 hirest r

/-- C7: for every driver-reported present-mode list,
    `PresentModeBuilder::build` returns `MAILBOX` when the list
    contains it, otherwise `IMMEDIATE` when the list contains it,
    otherwise `FIFO`; the build is infallible once the list is
    obtained, so a FIFO-only driver gets `FIFO` without failure. -/
theorem present_mode_preference (modes : List PresentModeKHR) :
    (PresentModeKHR.mailbox ∈ modes →
      presentModeBuild modes = PresentModeKHR.mailbox) ∧
    (PresentModeKHR.mailbox ∉ modes → PresentModeKHR.immediate ∈ modes →
      presentModeBuild modes = PresentModeKHR.immediate) ∧
    (PresentModeKHR.mailbox ∉ modes → PresentModeKHR.immediate ∉ modes →
      presentModeBuild modes = PresentModeKHR.fifo) :=
  ⟨fun h => presentModeLoop_of_mailbox modes h _,
   fun hm hi => presentModeLoop_of_immediate modes hm hi _,
   fun hm hi => presentModeLoop_of_accumulator modes hm hi _⟩

/-- Witness for `present_mode_preference`: a driver reporting only
    `FIFO` yields `FIFO`. -/
theorem present_mode_preference_witness :
    presentModeBuild [PresentModeKHR.fifo] = PresentModeKHR.fifo :=
  (present_mode_preference [PresentModeKHR.fifo]).2.2 (by decide) (by decide)

/-- C8: for every 24-bit-truncated instance id, 8-bit mask, hit-group
    offset and `u32` flags value, `VulkanGeometryInstance::new` packs
    `instance_id_and_mask = (id & 0x00ffffff) | (mask << 24)` and
    `instance_offset_and_flags =
      (offset & 0x00ffffff) | ((flags as 8-bit) << 24)`,
    and stores `transform` and `acceleration_handle` unchanged. -/
theorem vgi_packing (transform : List Nat) (id mask offset flags handle : Nat)
    (hmask : mask < 256) (hflags : flags < 2 ^ 32) :
    (vgiNew transform id mask offset flags handle).instance_id_and_mask
      = (id &&& 0x00ffffff) ||| (mask <<< 24) ∧
    (vgiNew transform id mask offset flags handle).instance_offset_and_flags
      = (offset &&& 0x00ffffff) ||| ((flags % 256) <<< 24) ∧
    (vgiNew transform id mask offset flags handle).transform = transform ∧
    (vgiNew transform id mask offset flags handle).acceleration_handle = handle := by
  refine ⟨?_, ?_, rfl, rfl⟩
  · simp [vgiNew, vgiSetMask, vgiSetId, Nat.zero_or]
  · have key : (flags <<< 24) % 2 ^ 32 = (flags % 256) <<< 24 := by
      rw [Nat.shiftLeft_eq, Nat.shiftLeft_eq]
      have h32 : (2 : Nat) ^ 32 = 256 * 2 ^ 24 := by norm_num
      rw [h32, Nat.mul_mod_mul_right]
    simp only [vgiNew, vgiSetFlags, vgiSetOffset, Nat.zero_or, key]

/-- Witness for `vgi_packing` at concrete values (mask 255, flags 511,
    whose low byte 255 is what lands in the top bits). -/
theorem vgi_packing_witness :
    (vgiNew [] 0x12345678 255 3 511 42).instance_id_and_mask
      = (0x12345678 &&& 0x00ffffff) ||| (255 <<< 24) ∧
    (vgiNew [] 0x12345678 255 3 511 42).instance_offset_and_flags
      = (3 &&& 0x00ffffff) ||| ((511 % 256) <<< 24) :=
  ⟨(vgi_packing [] 0x12345678 255 3 511 42 (by norm_num) (by norm_num)).1,
   (vgi_packing [] 0x12345678 255 3 511 42 (by norm_num) (by norm_num)).2.1⟩

/-- C2, counterexample: for `BufferType::Uniform` the usage match arm
    yields only `UNIFORM_BUFFER` (0x10), which does not contain
    `TRANSFER_DST` (0x2), so the claimed "destination usage flags permit
    being a transfer destination" fails for that buffer type (the same
    holds for Staging, ShaderBindingTable, RayTracing and
    RayTracingInstance). -/
theorem create_buffer_counterexample :
    ¬ createBufferClaim BufferType.uniform [1, 2, 3] := by decide

/-- C2 (amended): for every buffer type and source byte sequence, the
    destination content after `create_buffer` equals the source bytes
    (round-trip through the host-visible staging buffer), but only the
    Vertex, Index and Storage destination types carry the
    `TRANSFER_DST` usage flag; for the remaining types the recorded GPU
    copy targets a buffer whose usage flags do not permit being a
    transfer destination. -/
theorem create_buffer_content (ty : BufferType) (data : List Nat) :
    (createBuffer ty data.length data).content = data ∧
    bufferMemoryProperties BufferType.staging &&& MEMORY_HOST_VISIBLE ≠ 0 ∧
    (bufferUsage ty &&& USAGE_TRANSFER_DST ≠ 0 ↔
      (ty = BufferType.vertex ∨ ty = BufferType.index ∨ ty = BufferType.storage)) := by
  refine ⟨?_, by decide, ?_⟩
  · simp [createBuffer, copyBuffer, bufferCopyData, bufferBuild]
  · cases ty <;> decide

/-- Witness for `create_buffer_content`: a concrete vertex-buffer
    upload round-trips its bytes and carries `TRANSFER_DST`. -/
theorem create_buffer_content_witness :
    (createBuffer BufferType.vertex [1, 2, 3].length [1, 2, 3]).content = [1, 2, 3] ∧
    bufferMemoryProperties BufferType.staging &&& MEMORY_HOST_VISIBLE ≠ 0 ∧
    (bufferUsage BufferType.vertex &&& USAGE_TRANSFER_DST ≠ 0 ↔
      (BufferType.vertex = BufferType.vertex ∨
       BufferType.vertex = BufferType.index ∨
       BufferType.vertex = BufferType.storage)) :=
  create_buffer_content BufferType.vertex [1, 2, 3]

/-- Helper: soundness of the `find_memory_type` scan, generalized over
    the running index. -/
theorem findMemoryTypeLoop_sound (tf props : Nat) :
    ∀ (mts : List MemoryType) (start i : Nat),
      findMemoryTypeLoop tf props mts start = some i →
      start ≤ i ∧
      (∃ mt, mts.get? (i - start) = some mt ∧
        tf &&& (1 <<< i) ≠ 0 ∧ mt.property_flags &&& props = props) ∧
      (∀ j, start ≤ j → j < i →
        ∃ mt', mts.get? (j - start) = some mt' ∧
          ¬(tf &&& (1 <<< j) ≠ 0 ∧ mt'.property_flags &&& props = props)) := by
  intro mts
  induction mts with
  | nil => intro start i h; simp [findMemoryTypeLoop] at h
  | cons mt rest ih =>
    intro start i h
    rw [findMemoryTypeLoop] at h
    by_cases hc : tf &&& (1 <<< start) ≠ 0 ∧ mt.property_flags &&& props = props
    · rw [if_pos hc] at h
      cases h
      refine ⟨Nat.le_refl _, ⟨mt, by simp, hc.1, hc.2⟩, ?_⟩
      intro j h1 h2
      omega
    · rw [if_neg hc] at h
      obtain ⟨hle, ⟨mt', hget, hbit, hprop⟩, hmin⟩ := ih (start + 1) i h
      refine ⟨by omega, ⟨mt', ?_, hbit, hprop⟩, ?_⟩
      · have : i - start = (i - (start + 1)) + 1 := by omega
        rw [this]
        simpa using hget
      · intro j hj1 hj2
        by_cases hjs : j = start
        · subst hjs
          exact ⟨mt, by simp, hc⟩
        · obtain ⟨mt'', hget'', hneg⟩ := hmin j (by omega) hj2
          refine ⟨mt'', ?_, hneg⟩
          have : j - start = (j - (start + 1)) + 1 := by omega
          rw [this]
          simpa using hget''

/-- C3: `find_memory_type` returns `some i` only when bit `i` of the
    memory-type bitmask is set and memory type `i`'s property flags are
    a superset of the requested properties, and `i` is the first such
    index; when no memory type matches, `BufferBuilder::build` fails
    with the descriptive `VertexBufferCreationError` instead of
    returning a non-matching index. -/
theorem find_memory_type_spec :
    (∀ tf props (mts : List MemoryType) i,
      find_memory_type tf props mts = some i →
      ∃ mt, mts.get? i = some mt ∧
        tf &&& (1 <<< i) ≠ 0 ∧
        mt.property_flags &&& props = props ∧
        ∀ j, j < i →
          ∃ mt', mts.get? j = some mt' ∧
            ¬(tf &&& (1 <<< j) ≠ 0 ∧ mt'.property_flags &&& props = props)) ∧
    (∀ tf props (mts : List MemoryType),
      find_memory_type tf props mts = none →
      bufferBuildMemoryTypeIndex tf props mts =
        .error (.VertexBufferCreationError "Cannot find a memory type")) := by
  constructor
  · intro tf props mts i h
    obtain ⟨_, ⟨mt, hget, hbit, hprop⟩, hmin⟩ := findMemoryTypeLoop_sound tf props mts 0 i h
    refine ⟨mt, by simpa using hget, hbit, hprop, ?_⟩
    intro j hj
    obtain ⟨mt', hget', hneg⟩ := hmin j (Nat.zero_le j) hj
    exact ⟨mt', by simpa using hget', hneg⟩
  · intro tf props mts h
    simp [bufferBuildMemoryTypeIndex, h]

/-- Witness for `find_memory_type_spec`: with bitmask `0b10` and
    requested properties `0b11` over memory types `[0x1, 0x7]`, the scan
    returns index 1, whose flags `0x7` are a superset of `0b11`, and the
    skipped index 0 fails the bitmask test. -/
theorem find_memory_type_spec_witness :
    ∃ mt, [MemoryType.mk 0x1, MemoryType.mk 0x7].get? 1 = some mt ∧
      2 &&& (1 <<< 1) ≠ 0 ∧
      mt.property_flags &&& 3 = 3 ∧
      ∀ j, j < 1 →
        ∃ mt', [MemoryType.mk 0x1, MemoryType.mk 0x7].get? j = some mt' ∧
          ¬(2 &&& (1 <<< j) ≠ 0 ∧ mt'.property_flags &&& 3 = 3) :=
  find_memory_type_spec.1 2 3 [MemoryType.mk 0x1, MemoryType.mk 0x7] 1 (by decide)

deriving instance DecidableEq for Except

/-- C4: for each of the supported (old, new) layout pairs,
    `transition_image_layout` records exactly one barrier carrying the
    access/stage quadruple of the fixed table, and for every other pair
    it returns `ImageCreationError("unsupported layout transition")`
    before recording any barrier. -/
theorem transition_image_layout_table (old_layout new_layout : ImageLayout) :
    ((old_layout = ImageLayout.undefined ∧
        (new_layout = ImageLayout.transferDstOptimal ∨
         new_layout = ImageLayout.transferSrcOptimal)) →
      transition_image_layout old_layout new_layout =
        .ok [{ src_access_mask := ACCESS_NONE
               dst_access_mask := ACCESS_TRANSFER_WRITE
               src_stage := STAGE_TOP_OF_PIPE
               dst_stage := STAGE_TRANSFER
               old_layout := old_layout
               new_layout := new_layout }]) ∧
    ((old_layout = ImageLayout.transferDstOptimal ∧
        new_layout = ImageLayout.shaderReadOnlyOptimal) →
      transition_image_layout old_layout new_layout =
        .ok [{ src_access_mask := ACCESS_TRANSFER_WRITE
               dst_access_mask := ACCESS_SHADER_READ
               src_stage := STAGE_TRANSFER
               dst_stage := STAGE_FRAGMENT_SHADER
               old_layout := old_layout
               new_layout := new_layout }]) ∧
    ((old_layout = ImageLayout.undefined ∧
        new_layout = ImageLayout.depthStencilAttachmentOptimal) →
      transition_image_layout old_layout new_layout =
        .ok [{ src_access_mask := ACCESS_NONE
               dst_access_mask := ACCESS_DEPTH_STENCIL_ATTACHMENT_READ |||
                                  ACCESS_DEPTH_STENCIL_ATTACHMENT_WRITE
               src_stage := STAGE_TOP_OF_PIPE
               dst_stage := STAGE_EARLY_FRAGMENT_TESTS
               old_layout := old_layout
               new_layout := new_layout }]) ∧
    (¬((old_layout = ImageLayout.undefined ∧
          (new_layout = ImageLayout.transferDstOptimal ∨
           new_layout = ImageLayout.transferSrcOptimal)) ∨
       (old_layout = ImageLayout.transferDstOptimal ∧
          new_layout = ImageLayout.shaderReadOnlyOptimal) ∨
       (old_layout = ImageLayout.undefined ∧
          new_layout = ImageLayout.depthStencilAttachmentOptimal)) →
      transition_image_layout old_layout new_layout =
        .error (.ImageCreationError "unsupported layout transition")) := by
  cases old_layout <;> cases new_layout <;> decide

/-- Witness for `transition_image_layout_table`: the depth-buffer
    transition used by `DepthResources` (`UNDEFINED` to
    `DEPTH_STENCIL_ATTACHMENT_OPTIMAL`) selects the depth-stencil
    quadruple. -/
theorem transition_image_layout_table_witness :
    transition_image_layout ImageLayout.undefined
        ImageLayout.depthStencilAttachmentOptimal =
      .ok [{ src_access_mask := ACCESS_NONE
             dst_access_mask := ACCESS_DEPTH_STENCIL_ATTACHMENT_READ |||
                                ACCESS_DEPTH_STENCIL_ATTACHMENT_WRITE
             src_stage := STAGE_TOP_OF_PIPE
             dst_stage := STAGE_EARLY_FRAGMENT_TESTS
             old_layout := ImageLayout.undefined
             new_layout := ImageLayout.depthStencilAttachmentOptimal }] :=
  (transition_image_layout_table ImageLayout.undefined
      ImageLayout.depthStencilAttachmentOptimal).2.2.1 ⟨rfl, rfl⟩

/-- A device capability description with presentation support only in a
    queue family different from the graphics family: family 0 has one
    graphics queue but no surface support, family 1 supports the
    surface but has no graphics flag; extensions, formats, present
    modes and anisotropy are all satisfied. -/
def splitQueueDevice : DeviceDescription :=
  { queue_families :=
      [({ queue_count := 1, queue_flags := QUEUE_GRAPHICS }, false),
       ({ queue_count := 1, queue_flags := 0 }, true)]
    available_extensions := [1]
    required_extensions := [1]
    surface_formats := [44]
    surface_present_modes := [PresentModeKHR.fifo]
    sampler_anisotropy := true }

/-- C9: `splitQueueDevice` is accepted as suitable by
    `PhysicalDeviceBuilder::build` (its `find_queue_families` finds a
    graphics family and a present family, merely not the same one), yet
    `QueueFamilyBuilder::build`, which demands one family with both
    graphics and presentation, fails with
    `QueueFamilyCreationError` — device selection does not guarantee
    queue-family selection succeeds. -/
theorem device_suitable_but_queue_family_fails :
    is_device_suitable splitQueueDevice = true ∧
    queueFamilyBuild splitQueueDevice =
      .error (.QueueFamilyCreationError "Cannot find queue family") := by decide

/-- C10: every fence created by `CommandBuffersBuilder::build` carries
    the `SIGNALED` create flag, so it starts life signaled and the
    first `frame_begin`'s `wait_for_fence` on any slot returns without
    any prior `queue_submit` having signaled it (the
    `fenceWaitReturns` conjunct takes `pending_submission = false`). -/
theorem fences_created_signaled (buffer_count slot : Nat)
    (h : slot < buffer_count) :
    ∃ f, (commandBuffersBuildFences buffer_count).get? slot = some f ∧
      f.signaledAtCreation = true ∧
      fenceWaitReturns f.signaledAtCreation false = true := by
  refine ⟨{ flags := FENCE_CREATE_SIGNALED }, ?_, by decide, by decide⟩
  simp [commandBuffersBuildFences, List.get?_eq_getElem?, List.getElem?_replicate, h]

/-- Witness for `fences_created_signaled` at the default
    `frames_count = 2`, slot 0. -/
theorem fences_created_signaled_witness :
    ∃ f, (commandBuffersBuildFences 2).get? 0 = some f ∧
      f.signaledAtCreation = true ∧
      fenceWaitReturns f.signaledAtCreation false = true :=
  fences_created_signaled 2 0 (by decide)

/-- C5: in the single command buffer of
    `create_acceleration_structures`, the bottom-level build command
    (position `i`) and its `ACCELERATION_STRUCTURE_WRITE|READ` memory
    barrier (position `j`) are recorded before the top-level build
    command that references the bottom-level handle (position `k`),
    and every recorded build command whose instance data references the
    bottom-level handle lies strictly after that barrier. -/
theorem as_build_ordering (blasHandle tlasHandle : Nat) :
    ∃ i j k : Nat, i < j ∧ j < k ∧
      (createAccelerationStructuresTrace blasHandle tlasHandle).get? i =
        some (.buildAS ASType.bottomLevel blasHandle []) ∧
      (createAccelerationStructuresTrace blasHandle tlasHandle).get? j =
        some (.asBarrier
          (ACCESS_ACCELERATION_STRUCTURE_WRITE_NV ||| ACCESS_ACCELERATION_STRUCTURE_READ_NV)
          (ACCESS_ACCELERATION_STRUCTURE_WRITE_NV ||| ACCESS_ACCELERATION_STRUCTURE_READ_NV)) ∧
      (createAccelerationStructuresTrace blasHandle tlasHandle).get? k =
        some (.buildAS ASType.topLevel tlasHandle [blasHandle]) ∧
      ∀ k' ty built refs,
        (createAccelerationStructuresTrace blasHandle tlasHandle).get? k' =
          some (.buildAS ty built refs) →
        blasHandle ∈ refs → j < k' := by
  refine ⟨0, 1, 2, by omega, by omega, rfl, rfl, rfl, ?_⟩
  intro k' ty built refs h hmem
  match k' with
  | 0 =>
    simp only [createAccelerationStructuresTrace, generateTrace, List.append_eq,
      List.cons_append, List.nil_append, List.get?] at h
    cases h
    cases hmem
  | 1 =>
    simp [createAccelerationStructuresTrace, generateTrace] at h
  | 2 => omega
  | 3 =>
    simp [createAccelerationStructuresTrace, generateTrace] at h
  | (n + 4) =>
    simp [createAccelerationStructuresTrace, generateTrace] at h

/-- Witness for `as_build_ordering` at concrete bottom- and top-level
    handles. -/
theorem as_build_ordering_witness :
    ∃ i j k : Nat, i < j ∧ j < k ∧
      (createAccelerationStructuresTrace 5 9).get? i =
        some (.buildAS ASType.bottomLevel 5 []) ∧
      (createAccelerationStructuresTrace 5 9).get? j =
        some (.asBarrier
          (ACCESS_ACCELERATION_STRUCTURE_WRITE_NV ||| ACCESS_ACCELERATION_STRUCTURE_READ_NV)
          (ACCESS_ACCELERATION_STRUCTURE_WRITE_NV ||| ACCESS_ACCELERATION_STRUCTURE_READ_NV)) ∧
      (createAccelerationStructuresTrace 5 9).get? k =
        some (.buildAS ASType.topLevel 9 [5]) ∧
      ∀ k' ty built refs,
        (createAccelerationStructuresTrace 5 9).get? k' =
          some (.buildAS ty built refs) →
        (5 : Nat) ∈ refs → j < k' :=
  as_build_ordering 5 9

/-- Helper: a bounded run of frame cycles never wraps the frame index,
    so `runTrace` coincides with the straight-line `runTraceLin`. -/
theorem runTrace_eq_lin : ∀ (n i fc : Nat), i + n ≤ fc →
    runTrace i n fc = runTraceLin i n := by
  intro n
  induction n with
  | zero => intro i fc _; rfl
  | succ m ih =>
    intro i fc h
    rw [runTrace, runTraceLin]
    congr 1
    cases m with
    | zero => rfl
    | succ k =>
      have hlt : i + 1 < fc := by omega
      rw [framePresentNextIndex, Nat.mod_eq_of_lt hlt]
      exact ih (i + 1) fc (by omega)

/-- Helper: one cycle waits on exactly its own slot's fence. -/
theorem count_waitFence_cycle (i s : Nat) :
    (cycleTrace i).count (FrameEvent.waitFence s) = if s = i then 1 else 0 := by
  by_cases h : s = i <;> simp [cycleTrace, List.count_cons, h]

/-- Helper: one cycle resets exactly its own slot's fence. -/
theorem count_resetFence_cycle (i s : Nat) :
    (cycleTrace i).count (FrameEvent.resetFence s) = if s = i then 1 else 0 := by
  by_cases h : s = i <;> simp [cycleTrace, List.count_cons, h]

/-- Helper: fence-wait count over a straight-line window of cycles. -/
theorem count_waitFence_lin : ∀ (n i s : Nat),
    (runTraceLin i n).count (FrameEvent.waitFence s) =
      if i ≤ s ∧ s < i + n then 1 else 0 := by
  intro n
  induction n with
  | zero => intro i s; rw [if_neg (by omega)]; rfl
  | succ m ih =>
    intro i s
    rw [runTraceLin, List.count_append, count_waitFence_cycle, ih]
    split_ifs <;> omega

/-- Helper: fence-reset count over a straight-line window of cycles. -/
theorem count_resetFence_lin : ∀ (n i s : Nat),
    (runTraceLin i n).count (FrameEvent.resetFence s) =
      if i ≤ s ∧ s < i + n then 1 else 0 := by
  intro n
  induction n with
  | zero => intro i s; rw [if_neg (by omega)]; rfl
  | succ m ih =>
    intro i s
    rw [runTraceLin, List.count_append, count_resetFence_cycle, ih]
    split_ifs <;> omega

/-- Helper: the fence-safety automaton distributes over trace
    concatenation. -/
theorem runSafe_append (l1 l2 : List FrameEvent) :
    ∀ st : Nat → Bool,
    runSafe (l1 ++ l2) st =
      ((runSafe l1 st).1 && (runSafe l2 (runSafe l1 st).2).1,
       (runSafe l2 (runSafe l1 st).2).2) := by
  induction l1 with
  | nil => intro st; simp [runSafe]
  | cons e rest ih =>
    intro st
    cases e <;> simp [runSafe, ih, Bool.and_assoc]

/-- Helper: within one cycle the single `beginCB` is always preceded by
    the cycle's own `waitFence`, so the cycle is fence-safe from any
    incoming state. -/
theorem runSafe_cycle_fst (i : Nat) (st : Nat → Bool) :
    (runSafe (cycleTrace i) st).1 = true := by
  simp [cycleTrace, runSafe]

/-- Helper: every run of frame cycles is fence-safe from any state. -/
theorem runSafe_runTrace (n : Nat) :
    ∀ (i fc : Nat) (st : Nat → Bool),
    (runSafe (runTrace i n fc) st).1 = true := by
  induction n with
  | zero => intro i fc st; rfl
  | succ m ih =>
    intro i fc st
    rw [runTrace, runSafe_append]
    simp [runSafe_cycle_fst, ih]

/-- Helper: each slot's cycle occurs as a contiguous block of the
    straight-line trace. -/
theorem cycle_infix_lin : ∀ (n i s : Nat), i ≤ s → s < i + n →
    ∃ pre suf, runTraceLin i n = pre ++ (cycleTrace s ++ suf) := by
  intro n
  induction n with
  | zero => intro i s h1 h2; omega
  | succ m ih =>
    intro i s h1 h2
    by_cases hs : s = i
    · subst hs
      exact ⟨[], runTraceLin (s + 1) m, rfl⟩
    · obtain ⟨pre, suf, heq⟩ := ih (i + 1) s (by omega) (by omega)
      exact ⟨cycleTrace i ++ pre, suf, by rw [runTraceLin, heq, List.append_assoc]⟩

/-- Helper: the wait-record-reset-submit order of one slot inside its
    own cycle. -/
theorem sync_sublist_cycle (s : Nat) :
    [FrameEvent.waitFence s, FrameEvent.beginCB s, FrameEvent.resetFence s,
     FrameEvent.queueSubmit s].Sublist (cycleTrace s) :=
  List.Sublist.cons₂ _ (List.Sublist.cons _ (List.Sublist.cons₂ _
    (List.Sublist.cons _ (List.Sublist.cons₂ _ (List.Sublist.cons₂ _
      (List.Sublist.cons _ List.Sublist.slnil))))))

/-- C6: cycling `frames_count` consecutive
    `frame_begin`/`frame_end`/`frame_present` cycles from startup, each
    slot's fence is waited on exactly once and reset exactly once; for
    each slot the wait precedes the recording (`beginCB`), which
    precedes the reset, which precedes the submit; no command buffer is
    begun while its slot's fence is not known signaled (the safety
    automaton accepts the whole trace, starting from the all-signaled
    state `CommandBuffersBuilder::build` establishes); and
    `frame_present` advances the frame index to
    `(i + 1) % frames_count`. -/
theorem frame_sync_protocol (fc s : Nat) (hs : s < fc) :
    (runTrace 0 fc fc).count (FrameEvent.waitFence s) = 1 ∧
    (runTrace 0 fc fc).count (FrameEvent.resetFence s) = 1 ∧
    ([FrameEvent.waitFence s, FrameEvent.beginCB s, FrameEvent.resetFence s,
      FrameEvent.queueSubmit s].Sublist (runTrace 0 fc fc)) ∧
    (runSafe (runTrace 0 fc fc) (fun _ => true)).1 = true ∧
    framePresentNextIndex s fc = (s + 1) % fc := by
  have hlin := runTrace_eq_lin fc 0 fc (by omega)
  refine ⟨?_, ?_, ?_, runSafe_runTrace fc 0 fc _, rfl⟩
  · rw [hlin, count_waitFence_lin, if_pos (by omega)]
  · rw [hlin, count_resetFence_lin, if_pos (by omega)]
  · rw [hlin]
    obtain ⟨pre, suf, heq⟩ := cycle_infix_lin fc 0 s (by omega) (by omega)
    rw [heq]
    exact ((sync_sublist_cycle s).trans
      (List.sublist_append_left _ _)).trans (List.sublist_append_right _ _)

/-- Witness for `frame_sync_protocol` at the default
    `frames_count = 2`, slot 0. -/
theorem frame_sync_protocol_witness :
    (runTrace 0 2 2).count (FrameEvent.waitFence 0) = 1 ∧
    (runTrace 0 2 2).count (FrameEvent.resetFence 0) = 1 ∧
    ([FrameEvent.waitFence 0, FrameEvent.beginCB 0, FrameEvent.resetFence 0,
      FrameEvent.queueSubmit 0].Sublist (runTrace 0 2 2)) ∧
    (runSafe (runTrace 0 2 2) (fun _ => true)).1 = true ∧
    framePresentNextIndex 0 2 = (0 + 1) % 2 :=
  frame_sync_protocol 2 0 (by decide)

end R2R2
